import Mathlib

/-!
Shallow embedding of the GitHub API proxy Azure Function
(src/GitHubProxy/index.js).

The handler is modelled as a pure function `handle` from
  * the credential configuration read from the environment,
  * the inbound request (method, route path, original URL, query, body),
  * an oracle describing the outcome of the single upstream fetch
    (network failure message, or the upstream response; the upstream
    response offers both its raw text and the outcome of JSON-parsing it)
to an outcome consisting of the response written to `context.res` and the
outbound call made to the upstream API (if any).

JavaScript truthiness on optional strings (`undefined` and the empty
string are falsy) is modelled by `truthy`.  JavaScript objects such as
`req.query` are modelled as association lists of their enumerable
entries.  URL values are kept abstract as base, path and a list of
search parameters, mirroring `URL`/`searchParams.append`.
-/

/-- JavaScript truthiness of an optional string: `undefined` and `""` are
falsy, every other string is truthy. -/
def truthy : Option String → Bool
  | none => false
  | some s => !s.isEmpty

/-- Does `pat` match at the head of the character list? -/
def matchesAt : List Char → List Char → Bool
  | [], _ => true
  | _ :: _, [] => false
  | p :: ps, c :: cs => p == c && matchesAt ps cs

/-- Does the character list contain `pat` as a contiguous run? -/
def hasSub (pat : List Char) : List Char → Bool
  | [] => pat.isEmpty
  | c :: cs => matchesAt pat (c :: cs) || hasSub pat cs

/-- JavaScript `s.includes(pat)`: substring containment. -/
def strContains (s pat : String) : Bool := hasSub pat.toList s.toList

/-- A JSON value (bodies of GraphQL requests and parsed upstream bodies). -/
inductive Json where
  | null
  | bool (b : Bool)
  | num (n : Int)
  | str (s : String)
  | arr (elems : List Json)
  | obj (fields : List (String × Json))

/-- A GraphQL request body: the `query` field (absent when the JSON object
has none) plus the remaining fields, which the proxy clones verbatim. -/
structure GqlBody where
  query : Option String
  extra : List (String × Json)

/-- Credential configuration read from the environment:
`GITHUB_TOKEN`, `GITHUB_CLIENT_ID`, `GITHUB_CLIENT_SECRET`. -/
structure Config where
  githubToken : Option String
  clientId : Option String
  clientSecret : Option String

/-- The inbound HTTP request as the function sees it: `req.method`,
`context.bindingData.path`, `req.originalUrl`, the entries of the
`req.query` object, and the parsed JSON body (`req.body`). -/
structure Request where
  method : String
  bindingPath : Option String
  originalUrl : Option String
  query : List (String × String)
  body : Option GqlBody

/-- The upstream fetch response: status, selected headers (absent headers
are `none`, as `headers.get` returns `null`), the raw text body, and the
outcome of JSON-parsing the body (`response.json()` may throw). -/
structure UpstreamResponse where
  status : Nat
  contentType : Option String
  rlLimit : Option String
  rlRemaining : Option String
  rlReset : Option String
  rlUsed : Option String
  textBody : String
  jsonBody : Except String Json

/-- A response body written to `context.res.body`. -/
inductive ResBody where
  | jsonData (j : Json)
  | textData (t : String)
  | errObj (error : String)
  | errDetails (error details : String)

/-- The `error` field of an error-shaped response body, if any. -/
def resErrorField : Option ResBody → Option String
  | some (.errObj e) => some e
  | some (.errDetails e _) => some e
  | _ => none

/-- The value assigned to `context.res`: status, the headers object if one
was set at all (the configuration-error response sets none), and the body
if one was set.  Header values may be `null` (rate-limit passthrough). -/
structure ContextRes where
  status : Nat
  headers : Option (List (String × Option String))
  body : Option ResBody

/-- The upstream URL as built with `new URL`: fixed base, route path, and
the accumulated `searchParams` entries in append order. -/
structure GitHubUrl where
  base : String
  path : String
  params : List (String × String)

/-- The single outbound fetch the handler performs, if any. -/
inductive OutboundCall where
  | rest (url : GitHubUrl) (method : String) (headers : List (String × String))
  | gql (url : String) (method : String) (headers : List (String × String)) (body : GqlBody)

/-- The observable outcome of one handler invocation. -/
structure HandlerOutcome where
  res : ContextRes
  call : Option OutboundCall

/-- CORS headers used by the preflight response (lines 10-12). -/
def corsHeaders : List (String × Option String) :=
  [("Access-Control-Allow-Origin", some "*"),
   ("Access-Control-Allow-Methods", some "GET, POST, OPTIONS"),
   ("Access-Control-Allow-Headers", some "Content-Type, Authorization")]

/-- Headers attached to error responses (catch blocks and the GraphQL 400):
content type plus the CORS headers. -/
def errHeaders : List (String × Option String) :=
  ("Content-Type", some "application/json") :: corsHeaders

/-- The OPTIONS preflight response (lines 7-14): status 200, the CORS
headers, and no body. -/
def optionsRes : ContextRes :=
  { status := 200, headers := some corsHeaders, body := none }

/-- The configuration-error response (lines 36-39): status 500 and an error
body; no headers field is set at all. -/
def configErrorRes : ContextRes :=
  { status := 500, headers := none,
    body := some (.errObj "Server configuration error - Missing authentication credentials") }

/-- The REST catch-block response (lines 134-143). -/
def restCatchRes (msg : String) : ContextRes :=
  { status := 500, headers := some errHeaders,
    body := some (.errDetails "Failed to proxy GitHub API request" msg) }

/-- The GraphQL catch-block response (lines 229-238). -/
def gqlCatchRes (msg : String) : ContextRes :=
  { status := 500, headers := some errHeaders,
    body := some (.errDetails "Failed to proxy GraphQL request" msg) }

/-- The GraphQL missing-query response (lines 159-168). -/
def gqlMissingQueryRes : ContextRes :=
  { status := 400, headers := some errHeaders,
    body := some (.errObj "Missing GraphQL query in request body") }

/-- Line 30: `!githubToken && (!clientId || !clientSecret)`. -/
def credsMissing (cfg : Config) : Bool :=
  !truthy cfg.githubToken && (!truthy cfg.clientId || !truthy cfg.clientSecret)

/-- Line 62: the query-copy loop keeps a key unless it is one of
`code`, `client_id`, `client_secret`. -/
def keepKey (k : String) : Bool :=
  k != "code" && k != "client_id" && k != "client_secret"

/-- Lines 61-65: the query entries appended onto the upstream URL. -/
def copyQuery (q : List (String × String)) : List (String × String) :=
  q.filter (fun kv => keepKey kv.1)

/-- UTF-8 encoding of one character, as a list of byte values. -/
def utf8BytesOfChar (c : Char) : List Nat :=
  let n := c.toNat
  if n < 128 then [n]
  else if n < 2048 then [192 + n / 64, 128 + n % 64]
  else if n < 65536 then [224 + n / 4096, 128 + n / 64 % 64, 128 + n % 64]
  else [240 + n / 262144, 128 + n / 4096 % 64, 128 + n / 64 % 64, 128 + n % 64]

/-- UTF-8 encoding of a string, as a list of byte values. -/
def utf8Bytes (s : String) : List Nat :=
  (s.toList.map utf8BytesOfChar).flatten

/-- The base64 alphabet. -/
def base64Alphabet : List Char :=
  "ABCDEFGHIJKLMNOPQRSTUVWXYZabcdefghijklmnopqrstuvwxyz0123456789+/".toList

/-- The base64 digit for a 6-bit value. -/
def b64Digit (n : Nat) : Char := base64Alphabet.getD n '='

/-- Standard base64 encoding of a byte list, with padding. -/
def base64EncodeBytes : List Nat → List Char
  | [] => []
  | [a] => [b64Digit (a / 4), b64Digit (a % 4 * 16), '=', '=']
  | [a, b] => [b64Digit (a / 4), b64Digit (a % 4 * 16 + b / 16), b64Digit (b % 16 * 4), '=']
  | a :: b :: c :: rest =>
    b64Digit (a / 4) :: b64Digit (a % 4 * 16 + b / 16) ::
      b64Digit (b % 16 * 4 + c / 64) :: b64Digit (c % 64) :: base64EncodeBytes rest

/-- `Buffer.from(s).toString('base64')`: base64 of the UTF-8 bytes. -/
def base64OfString (s : String) : String :=
  String.mk (base64EncodeBytes (utf8Bytes s))

/-- The fixed upstream base (line 54). -/
def githubBase : String := "https://api.github.com/"

/-- Lines 73-81: headers for the REST call; token auth adds a Bearer
authorization header. -/
def restHeaders (cfg : Config) : List (String × String) :=
  let base := [("User-Agent", "GitHub-API-Proxy"),
               ("Accept", "application/vnd.github+json")]
  if truthy cfg.githubToken then
    base ++ [("Authorization", "Bearer " ++ cfg.githubToken.getD "")]
  else
    base

/-- Lines 54-68 and 82-89: the upstream REST URL; inbound query entries are
copied through the exclusion filter, and when token auth is not used the
client id and secret are appended as query parameters. -/
def restUrl (cfg : Config) (path : String) (q : List (String × String)) : GitHubUrl :=
  let url : GitHubUrl := { base := githubBase, path := path, params := copyQuery q }
  if truthy cfg.githubToken then
    url
  else
    { url with params := url.params ++
        [("client_id", cfg.clientId.getD ""), ("client_secret", cfg.clientSecret.getD "")] }

/-- Line 92: the REST fetch (method defaults to GET). -/
def restCall (cfg : Config) (path : String) (q : List (String × String)) : OutboundCall :=
  OutboundCall.rest (restUrl cfg path q) "GET" (restHeaders cfg)

/-- Line 103: `contentType && contentType.includes('application/json')`. -/
def wantsJson (ct : Option String) : Bool :=
  match ct with
  | some s => !s.isEmpty && strContains s "application/json"
  | none => false

/-- Line 111: `response.headers.get('content-type') || 'application/json'`. -/
def ctHeaderValue (ct : Option String) : String :=
  match ct with
  | some s => if s.isEmpty then "application/json" else s
  | none => "application/json"

/-- Lines 110-120: REST response headers. -/
def restRespHeaders (ct : Option String) (resp : UpstreamResponse) : List (String × Option String) :=
  [("Content-Type", some (ctHeaderValue ct)),
   ("X-RateLimit-Limit", resp.rlLimit),
   ("X-RateLimit-Remaining", resp.rlRemaining),
   ("X-RateLimit-Reset", resp.rlReset),
   ("X-RateLimit-Used", resp.rlUsed),
   ("Access-Control-Allow-Origin", some "*"),
   ("Access-Control-Allow-Methods", some "GET, POST, OPTIONS"),
   ("Access-Control-Allow-Headers", some "Content-Type, Authorization"),
   ("Access-Control-Expose-Headers",
    some "X-RateLimit-Limit, X-RateLimit-Remaining, X-RateLimit-Reset, X-RateLimit-Used")]

/-- Lines 92-144: the REST `context.res`.  A fetch failure or a JSON-parse
failure lands in the catch block; otherwise the upstream status, headers
and (parsed or raw) body are passed through. -/
def restRes (fetchRes : Except String UpstreamResponse) : ContextRes :=
  match fetchRes with
  | .error msg => restCatchRes msg
  | .ok resp =>
    if wantsJson resp.contentType then
      match resp.jsonBody with
      | .error msg => restCatchRes msg
      | .ok j =>
        { status := resp.status,
          headers := some (restRespHeaders resp.contentType resp),
          body := some (.jsonData j) }
    else
      { status := resp.status,
        headers := some (restRespHeaders resp.contentType resp),
        body := some (.textData resp.textBody) }

/-- Lines 52-144: the REST branch of the handler. -/
def handleRest (cfg : Config) (path : String) (q : List (String × String))
    (fetchRes : Except String UpstreamResponse) : HandlerOutcome :=
  { res := restRes fetchRes, call := some (restCall cfg path q) }

/-- The default GraphQL body used when the request has no body (line 173). -/
def defaultGqlBody : GqlBody :=
  { query := some "\x7bviewer\x7blogin\x7d\x7d", extra := [] }

/-- Line 158: `!req.body || !req.body.query`. -/
def gqlBodyInvalid : Option GqlBody → Bool
  | none => true
  | some body => !truthy body.query

/-- Line 173: `req.body ? { ...req.body } : { query: ... }`. -/
def gqlEffectiveBody : Option GqlBody → GqlBody
  | some b => b
  | none => defaultGqlBody

/-- Lines 176-189: headers for the GraphQL call; token auth adds a Bearer
header, otherwise client id and secret form a Basic header. -/
def gqlHeaders (cfg : Config) : List (String × String) :=
  let base := [("User-Agent", "GitHub-API-Proxy"),
               ("Content-Type", "application/json"),
               ("Accept", "application/json")]
  if truthy cfg.githubToken then
    base ++ [("Authorization", "Bearer " ++ cfg.githubToken.getD "")]
  else if truthy cfg.clientId && truthy cfg.clientSecret then
    base ++ [("Authorization",
      "Basic " ++ base64OfString (cfg.clientId.getD "" ++ ":" ++ cfg.clientSecret.getD ""))]
  else
    base

/-- The GitHub GraphQL endpoint (line 155). -/
def gqlEndpoint : String := "https://api.github.com/graphql"

/-- Lines 192-196: the GraphQL fetch, always a POST to the fixed endpoint. -/
def gqlCall (cfg : Config) (body : GqlBody) : OutboundCall :=
  OutboundCall.gql gqlEndpoint "POST" (gqlHeaders cfg) body

/-- Lines 208-220: GraphQL response headers. -/
def gqlRespHeaders (resp : UpstreamResponse) : List (String × Option String) :=
  [("Content-Type", some "application/json"),
   ("Access-Control-Allow-Origin", some "*"),
   ("Access-Control-Allow-Methods", some "GET, POST, OPTIONS"),
   ("Access-Control-Allow-Headers", some "Content-Type, Authorization"),
   ("Access-Control-Expose-Headers",
    some "X-RateLimit-Limit, X-RateLimit-Remaining, X-RateLimit-Reset, X-RateLimit-Used"),
   ("X-RateLimit-Limit", resp.rlLimit),
   ("X-RateLimit-Remaining", resp.rlRemaining),
   ("X-RateLimit-Reset", resp.rlReset),
   ("X-RateLimit-Used", resp.rlUsed)]

/-- Lines 192-238: the GraphQL `context.res` once the fetch is made; the
body is always JSON-parsed, and failures land in the catch block. -/
def gqlRes (fetchRes : Except String UpstreamResponse) : ContextRes :=
  match fetchRes with
  | .error msg => gqlCatchRes msg
  | .ok resp =>
    match resp.jsonBody with
    | .error msg => gqlCatchRes msg
    | .ok j =>
      { status := resp.status,
        headers := some (gqlRespHeaders resp),
        body := some (.jsonData j) }

/-- Lines 150-239: `handleGraphQLRequest`.  A POST whose body is falsy or
lacks a truthy `query` field is rejected with the 400 response before any
fetch; otherwise the (possibly defaulted) body is POSTed upstream. -/
def handleGraphQLRequest (cfg : Config) (req : Request)
    (fetchRes : Except String UpstreamResponse) : HandlerOutcome :=
  if req.method == "POST" && gqlBodyInvalid req.body then
    { res := gqlMissingQueryRes, call := none }
  else
    { res := gqlRes fetchRes,
      call := some (gqlCall cfg (gqlEffectiveBody req.body)) }

/-- Line 44: `context.bindingData.path || ""`. -/
def reqPath (req : Request) : String := req.bindingPath.getD ""

/-- Line 47: `path === "graphql" || req.originalUrl?.includes("/graphql")`. -/
def isGraphQLRoute (req : Request) : Bool :=
  reqPath req == "graphql" ||
    (match req.originalUrl with
     | some u => strContains u "/graphql"
     | none => false)

/-- Lines 3-145: the exported handler.  OPTIONS preflight is answered first;
then the credential check; then dispatch to the GraphQL or REST branch. -/
def handle (cfg : Config) (req : Request)
    (fetchRes : Except String UpstreamResponse) : HandlerOutcome :=
  if req.method == "OPTIONS" then
    { res := optionsRes, call := none }
  else if credsMissing cfg then
    { res := configErrorRes, call := none }
  else if isGraphQLRoute req then
    handleGraphQLRequest cfg req fetchRes
  else
    handleRest cfg (reqPath req) req.query fetchRes

/-! ## Helper lemmas -/

/-- Every entry surviving the copy loop has a kept key. -/
theorem mem_copyQuery_keepKey (q : List (String × String)) :
    ∀ p ∈ copyQuery q, keepKey p.1 = true :=
  fun _ hp => (List.mem_filter.mp hp).2

/-- Multiplicity of each entry after the copy loop: kept entries keep their
full multiplicity, excluded keys are dropped entirely. -/
theorem copyQuery_count (q : List (String × String)) (p : String × String) :
    (copyQuery q).count p = if keepKey p.1 = true then q.count p else 0 := by
  unfold copyQuery
  by_cases h : keepKey p.1 = true
  · rw [if_pos h]
    exact List.count_filter h
  · rw [if_neg h]
    rw [List.count_eq_zero]
    intro hmem
    exact h (List.mem_filter.mp hmem).2

/-- Substring containment by the nonempty pattern `application/json` forces
the searched string to be nonempty, so the truthiness guard on line 103 is
redundant. -/
theorem wantsJson_eq_contains (s : String) :
    wantsJson (some s) = strContains s "application/json" := by
  cases hb : s.isEmpty with
  | true =>
    have hs : s = "" := (String.isEmpty_iff s).mp hb
    subst hs
    decide
  | false =>
    simp [wantsJson, hb]

/-! ## Claim theorems -/

/-- Claim C4: an OPTIONS request, for every configuration (including a
completely empty one) and every path, is answered immediately with status
200, exactly the three CORS headers, no body, and no upstream call. -/
theorem options_preflight_short_circuits (cfg : Config) (req : Request)
    (fr : Except String UpstreamResponse)
    (hm : (req.method == "OPTIONS") = true) :
    handle cfg req fr = { res := optionsRes, call := none }
    ∧ optionsRes.status = 200
    ∧ optionsRes.headers = some corsHeaders
    ∧ corsHeaders =
        [("Access-Control-Allow-Origin", some "*"),
         ("Access-Control-Allow-Methods", some "GET, POST, OPTIONS"),
         ("Access-Control-Allow-Headers", some "Content-Type, Authorization")]
    ∧ optionsRes.body = none := by
  refine ⟨?_, rfl, rfl, rfl, rfl⟩
  simp [handle, hm]

/-- Witness for C4 at a concrete OPTIONS request with no credentials. -/
theorem options_preflight_short_circuits_witness :
    handle { githubToken := none, clientId := none, clientSecret := none }
        { method := "OPTIONS", bindingPath := some "users/octocat", originalUrl := none,
          query := [("a", "1")], body := none }
        (Except.error "net down")
      = { res := optionsRes, call := none }
    ∧ optionsRes.status = 200
    ∧ optionsRes.headers = some corsHeaders
    ∧ corsHeaders =
        [("Access-Control-Allow-Origin", some "*"),
         ("Access-Control-Allow-Methods", some "GET, POST, OPTIONS"),
         ("Access-Control-Allow-Headers", some "Content-Type, Authorization")]
    ∧ optionsRes.body = none :=
  options_preflight_short_circuits _ _ _ rfl

/-- Claim C3: a non-OPTIONS request without any complete credential form is
rejected with status 500 and the configuration-error body, and no upstream
call is made. -/
theorem missing_credentials_rejected (cfg : Config) (req : Request)
    (fr : Except String UpstreamResponse)
    (hm : (req.method == "OPTIONS") = false)
    (hc : credsMissing cfg = true) :
    (handle cfg req fr).res = configErrorRes
    ∧ configErrorRes.status = 500
    ∧ configErrorRes.body =
        some (ResBody.errObj "Server configuration error - Missing authentication credentials")
    ∧ (handle cfg req fr).call = none := by
  refine ⟨?_, rfl, rfl, ?_⟩ <;> simp [handle, hm, hc]

/-- Witness for C3: a GET with a token that is present but empty (falsy)
and only a client id is rejected without any call. -/
theorem missing_credentials_rejected_witness :
    (handle { githubToken := some "", clientId := some "cid1", clientSecret := none }
        { method := "GET", bindingPath := some "users", originalUrl := none,
          query := [], body := none }
        (Except.error "net")).res = configErrorRes
    ∧ configErrorRes.status = 500
    ∧ configErrorRes.body =
        some (ResBody.errObj "Server configuration error - Missing authentication credentials")
    ∧ (handle { githubToken := some "", clientId := some "cid1", clientSecret := none }
        { method := "GET", bindingPath := some "users", originalUrl := none,
          query := [], body := none }
        (Except.error "net")).call = none :=
  missing_credentials_rejected _ _ _ rfl rfl

/-- Claim C10: the configuration-error response sets no headers object at
all (in particular no CORS headers), while every other error response the
handler produces carries the content-type and CORS headers. -/
theorem config_error_response_has_no_headers (cfg : Config) (req : Request)
    (fr : Except String UpstreamResponse)
    (hm : (req.method == "OPTIONS") = false)
    (hc : credsMissing cfg = true) :
    (handle cfg req fr).res = configErrorRes
    ∧ configErrorRes.headers = none
    ∧ (∀ msg, (restCatchRes msg).headers = some errHeaders)
    ∧ (∀ msg, (gqlCatchRes msg).headers = some errHeaders)
    ∧ gqlMissingQueryRes.headers = some errHeaders
    ∧ ("Access-Control-Allow-Origin", some "*") ∈ errHeaders := by
  refine ⟨?_, rfl, fun _ => rfl, fun _ => rfl, rfl, ?_⟩
  · simp [handle, hm, hc]
  · simp [errHeaders, corsHeaders]

/-- Witness for C10 at a concrete credential-less POST. -/
theorem config_error_response_has_no_headers_witness :
    (handle { githubToken := none, clientId := none, clientSecret := some "s" }
        { method := "POST", bindingPath := some "graphql", originalUrl := none,
          query := [], body := none }
        (Except.error "net")).res = configErrorRes
    ∧ configErrorRes.headers = none
    ∧ (∀ msg, (restCatchRes msg).headers = some errHeaders)
    ∧ (∀ msg, (gqlCatchRes msg).headers = some errHeaders)
    ∧ gqlMissingQueryRes.headers = some errHeaders
    ∧ ("Access-Control-Allow-Origin", some "*") ∈ errHeaders :=
  config_error_response_has_no_headers _ _ _ rfl rfl

/-- Claim C1: on the REST branch the outbound URL is the GitHub base with
the route path, and its query is exactly the inbound entries with `code`,
`client_id` and `client_secret` removed (full multiplicity preserved for
every kept entry); anything beyond the copied entries is the credential
tail appended by the client-id/secret auth strategy, never copied input. -/
theorem rest_url_copies_inbound_query (cfg : Config) (req : Request)
    (fr : Except String UpstreamResponse)
    (hm : (req.method == "OPTIONS") = false)
    (hc : credsMissing cfg = false)
    (hg : isGraphQLRoute req = false) :
    ∃ tail,
      (handle cfg req fr).call =
        some (OutboundCall.rest
          { base := "https://api.github.com/", path := reqPath req,
            params := copyQuery req.query ++ tail }
          "GET" (restHeaders cfg))
      ∧ (tail = [] ∨
          tail = [("client_id", cfg.clientId.getD ""),
                  ("client_secret", cfg.clientSecret.getD "")])
      ∧ (∀ p : String × String,
          (copyQuery req.query).count p =
            if keepKey p.1 = true then req.query.count p else 0)
      ∧ (∀ p ∈ copyQuery req.query, keepKey p.1 = true)
      ∧ keepKey "code" = false ∧ keepKey "client_id" = false
      ∧ keepKey "client_secret" = false := by
  by_cases ht : truthy cfg.githubToken = true
  · refine ⟨[], ?_, Or.inl rfl, fun p => copyQuery_count _ _,
      mem_copyQuery_keepKey _, rfl, rfl, rfl⟩
    simp [handle, hm, hc, hg, handleRest, restCall, restUrl, ht, githubBase]
  · refine ⟨[("client_id", cfg.clientId.getD ""),
      ("client_secret", cfg.clientSecret.getD "")], ?_, Or.inr rfl,
      fun p => copyQuery_count _ _, mem_copyQuery_keepKey _, rfl, rfl, rfl⟩
    simp [handle, hm, hc, hg, handleRest, restCall, restUrl, ht, githubBase]

/-- Witness for C1: a GET with duplicate kept keys and all three excluded
keys in the inbound query, under client-id/secret auth. -/
theorem rest_url_copies_inbound_query_witness :
    ∃ tail,
      (handle { githubToken := none, clientId := some "cid1", clientSecret := some "sec1" }
          { method := "GET", bindingPath := some "users/octocat/repos", originalUrl := none,
            query := [("per_page", "10"), ("code", "x"), ("per_page", "10"),
                      ("client_id", "evil"), ("client_secret", "evil"), ("page", "2")],
            body := none }
          (Except.error "net")).call =
        some (OutboundCall.rest
          { base := "https://api.github.com/", path := "users/octocat/repos",
            params := copyQuery
              [("per_page", "10"), ("code", "x"), ("per_page", "10"),
               ("client_id", "evil"), ("client_secret", "evil"), ("page", "2")] ++ tail }
          "GET" (restHeaders
            { githubToken := none, clientId := some "cid1", clientSecret := some "sec1" }))
      ∧ (tail = [] ∨
          tail = [("client_id", (some "cid1").getD ""),
                  ("client_secret", (some "sec1").getD "")])
      ∧ (∀ p : String × String,
          (copyQuery
            [("per_page", "10"), ("code", "x"), ("per_page", "10"),
             ("client_id", "evil"), ("client_secret", "evil"), ("page", "2")]).count p =
            if keepKey p.1 = true then
              ([("per_page", "10"), ("code", "x"), ("per_page", "10"),
                ("client_id", "evil"), ("client_secret", "evil"), ("page", "2")] :
                List (String × String)).count p
            else 0)
      ∧ (∀ p ∈ copyQuery
            [("per_page", "10"), ("code", "x"), ("per_page", "10"),
             ("client_id", "evil"), ("client_secret", "evil"), ("page", "2")],
          keepKey p.1 = true)
      ∧ keepKey "code" = false ∧ keepKey "client_id" = false
      ∧ keepKey "client_secret" = false :=
  rest_url_copies_inbound_query _ _ _ rfl rfl rfl

/-- Claim C2: auth strategy is selected by token priority.  With a truthy
token, both branches attach `Authorization: Bearer <token>` and the REST
URL carries no `client_id`/`client_secret` parameters; without a token
(but with id and secret), the REST call has no `Authorization` header and
carries both credential parameters, while the GraphQL call attaches
`Authorization: Basic <base64(id:secret)>`. -/
theorem auth_strategy_selection (cfg : Config) (req : Request)
    (fr : Except String UpstreamResponse)
    (hm : (req.method == "OPTIONS") = false)
    (hc : credsMissing cfg = false) :
    (isGraphQLRoute req = false → truthy cfg.githubToken = true →
      ∃ url hdrs, (handle cfg req fr).call = some (OutboundCall.rest url "GET" hdrs)
        ∧ ("Authorization", "Bearer " ++ cfg.githubToken.getD "") ∈ hdrs
        ∧ (∀ v, ("client_id", v) ∉ url.params)
        ∧ (∀ v, ("client_secret", v) ∉ url.params))
    ∧ (isGraphQLRoute req = false → truthy cfg.githubToken = false →
      ∃ url hdrs, (handle cfg req fr).call = some (OutboundCall.rest url "GET" hdrs)
        ∧ (∀ v, ("Authorization", v) ∉ hdrs)
        ∧ ("client_id", cfg.clientId.getD "") ∈ url.params
        ∧ ("client_secret", cfg.clientSecret.getD "") ∈ url.params)
    ∧ (isGraphQLRoute req = true →
       (req.method == "POST" && gqlBodyInvalid req.body) = false →
       truthy cfg.githubToken = true →
      ∃ hdrs b, (handle cfg req fr).call = some (OutboundCall.gql gqlEndpoint "POST" hdrs b)
        ∧ ("Authorization", "Bearer " ++ cfg.githubToken.getD "") ∈ hdrs)
    ∧ (isGraphQLRoute req = true →
       (req.method == "POST" && gqlBodyInvalid req.body) = false →
       truthy cfg.githubToken = false →
      ∃ hdrs b, (handle cfg req fr).call = some (OutboundCall.gql gqlEndpoint "POST" hdrs b)
        ∧ ("Authorization",
            "Basic " ++ base64OfString (cfg.clientId.getD "" ++ ":" ++ cfg.clientSecret.getD ""))
          ∈ hdrs) := by
  refine ⟨?_, ?_, ?_, ?_⟩
  · intro hg ht
    refine ⟨restUrl cfg (reqPath req) req.query, restHeaders cfg, ?_, ?_, ?_, ?_⟩
    · simp [handle, hm, hc, hg, handleRest, restCall]
    · simp [restHeaders, ht]
    · intro v hv
      have hkeep : keepKey "client_id" = true := by
        have := mem_copyQuery_keepKey req.query ("client_id", v) (by
          simpa [restUrl, ht] using hv)
        simpa using this
      exact absurd hkeep (by decide)
    · intro v hv
      have hkeep : keepKey "client_secret" = true := by
        have := mem_copyQuery_keepKey req.query ("client_secret", v) (by
          simpa [restUrl, ht] using hv)
        simpa using this
      exact absurd hkeep (by decide)
  · intro hg ht
    refine ⟨restUrl cfg (reqPath req) req.query, restHeaders cfg, ?_, ?_, ?_, ?_⟩
    · simp [handle, hm, hc, hg, handleRest, restCall]
    · intro v
      simp [restHeaders, ht]
    · simp [restUrl, ht]
    · simp [restUrl, ht]
  · intro hg hreject ht
    refine ⟨gqlHeaders cfg, gqlEffectiveBody req.body, ?_, ?_⟩
    · simp [handle, hm, hc, hg, handleGraphQLRequest, hreject, gqlCall]
    · simp [gqlHeaders, ht]
  · intro hg hreject ht
    have hcs : truthy cfg.clientId = true ∧ truthy cfg.clientSecret = true := by
      simpa [credsMissing, ht] using hc
    refine ⟨gqlHeaders cfg, gqlEffectiveBody req.body, ?_, ?_⟩
    · simp [handle, hm, hc, hg, handleGraphQLRequest, hreject, gqlCall]
    · simp [gqlHeaders, ht, hcs.1, hcs.2]

/-- A sample configuration with only client id and secret set. -/
def cfgClientOnly : Config :=
  { githubToken := none, clientId := some "cid1", clientSecret := some "sec1" }

/-- A sample REST GET request. -/
def reqRestSample : Request :=
  { method := "GET", bindingPath := some "rate_limit", originalUrl := none,
    query := [("a", "1")], body := none }

/-- Witness for C2 at a concrete client-id/secret configuration (no token)
for a REST request; the token and GraphQL branches hold vacuously. -/
theorem auth_strategy_selection_witness :
    (isGraphQLRoute reqRestSample = false → truthy cfgClientOnly.githubToken = true →
      ∃ url hdrs,
        (handle cfgClientOnly reqRestSample (Except.error "net")).call =
          some (OutboundCall.rest url "GET" hdrs)
        ∧ ("Authorization", "Bearer " ++ cfgClientOnly.githubToken.getD "") ∈ hdrs
        ∧ (∀ v, ("client_id", v) ∉ url.params)
        ∧ (∀ v, ("client_secret", v) ∉ url.params))
    ∧ (isGraphQLRoute reqRestSample = false → truthy cfgClientOnly.githubToken = false →
      ∃ url hdrs,
        (handle cfgClientOnly reqRestSample (Except.error "net")).call =
          some (OutboundCall.rest url "GET" hdrs)
        ∧ (∀ v, ("Authorization", v) ∉ hdrs)
        ∧ ("client_id", cfgClientOnly.clientId.getD "") ∈ url.params
        ∧ ("client_secret", cfgClientOnly.clientSecret.getD "") ∈ url.params)
    ∧ (isGraphQLRoute reqRestSample = true →
       (reqRestSample.method == "POST" && gqlBodyInvalid reqRestSample.body) = false →
       truthy cfgClientOnly.githubToken = true →
      ∃ hdrs b,
        (handle cfgClientOnly reqRestSample (Except.error "net")).call =
          some (OutboundCall.gql gqlEndpoint "POST" hdrs b)
        ∧ ("Authorization", "Bearer " ++ cfgClientOnly.githubToken.getD "") ∈ hdrs)
    ∧ (isGraphQLRoute reqRestSample = true →
       (reqRestSample.method == "POST" && gqlBodyInvalid reqRestSample.body) = false →
       truthy cfgClientOnly.githubToken = false →
      ∃ hdrs b,
        (handle cfgClientOnly reqRestSample (Except.error "net")).call =
          some (OutboundCall.gql gqlEndpoint "POST" hdrs b)
        ∧ ("Authorization",
            "Basic " ++ base64OfString
              (cfgClientOnly.clientId.getD "" ++ ":" ++ cfgClientOnly.clientSecret.getD ""))
          ∈ hdrs) :=
  auth_strategy_selection _ _ _ rfl rfl

/-- Counterexample to C5 as stated: a POST to the GraphQL path with no
body at all is rejected with status 400 and no upstream call ever carries
the defaulted body; the claim said such a request does not fail. -/
theorem gql_post_without_body_is_rejected_cex :
    (handle { githubToken := some "tok123", clientId := none, clientSecret := none }
        { method := "POST", bindingPath := some "graphql", originalUrl := none,
          query := [], body := none }
        (Except.error "net")).res.status = 400
    ∧ resErrorField (handle { githubToken := some "tok123", clientId := none, clientSecret := none }
        { method := "POST", bindingPath := some "graphql", originalUrl := none,
          query := [], body := none }
        (Except.error "net")).res.body = some "Missing GraphQL query in request body"
    ∧ (handle { githubToken := some "tok123", clientId := none, clientSecret := none }
        { method := "POST", bindingPath := some "graphql", originalUrl := none,
          query := [], body := none }
        (Except.error "net")).call = none :=
  ⟨rfl, rfl, rfl⟩

/-- Claim C5 (amended): on the GraphQL path, a POST whose body lacks a
truthy `query` field is rejected with status 400 and the missing-query
body, and this includes a POST with no body at all; no upstream call is
made.  The default body applies only to non-POST requests. -/
theorem gql_post_missing_query_rejected (cfg : Config) (req : Request)
    (fr : Except String UpstreamResponse)
    (hm : (req.method == "OPTIONS") = false)
    (hc : credsMissing cfg = false)
    (hr : isGraphQLRoute req = true)
    (hp : (req.method == "POST") = true)
    (hb : gqlBodyInvalid req.body = true) :
    (handle cfg req fr).res = gqlMissingQueryRes
    ∧ (handle cfg req fr).call = none
    ∧ gqlMissingQueryRes.status = 400
    ∧ gqlMissingQueryRes.body = some (ResBody.errObj "Missing GraphQL query in request body")
    ∧ (∀ b, gqlBodyInvalid (some b) = !truthy b.query)
    ∧ gqlBodyInvalid none = true := by
  refine ⟨?_, ?_, rfl, rfl, fun b => rfl, rfl⟩ <;>
    simp [handle, hm, hc, hr, handleGraphQLRequest, hp, hb]

/-- Witness for amended C5: a POST to `graphql` whose body is an object
without a `query` field is rejected. -/
theorem gql_post_missing_query_rejected_witness :
    (handle { githubToken := some "tok123", clientId := none, clientSecret := none }
        { method := "POST", bindingPath := some "graphql", originalUrl := none,
          query := [], body := some { query := none, extra := [("variables", Json.null)] } }
        (Except.error "net")).res = gqlMissingQueryRes
    ∧ (handle { githubToken := some "tok123", clientId := none, clientSecret := none }
        { method := "POST", bindingPath := some "graphql", originalUrl := none,
          query := [], body := some { query := none, extra := [("variables", Json.null)] } }
        (Except.error "net")).call = none
    ∧ gqlMissingQueryRes.status = 400
    ∧ gqlMissingQueryRes.body = some (ResBody.errObj "Missing GraphQL query in request body")
    ∧ (∀ b, gqlBodyInvalid (some b) = !truthy b.query)
    ∧ gqlBodyInvalid none = true :=
  gql_post_missing_query_rejected _ _ _ rfl rfl rfl rfl rfl

/-- Claim C9: a non-POST request dispatched to the GraphQL path with no
body skips the missing-query validation and is forwarded upstream as a
POST to the GraphQL endpoint carrying the defaulted viewer-login body. -/
theorem gql_nonpost_forwards_default_body (cfg : Config) (req : Request)
    (fr : Except String UpstreamResponse)
    (hm : (req.method == "OPTIONS") = false)
    (hp : (req.method == "POST") = false)
    (hc : credsMissing cfg = false)
    (hr : isGraphQLRoute req = true)
    (hb : req.body = none) :
    (handle cfg req fr).call =
      some (OutboundCall.gql gqlEndpoint "POST" (gqlHeaders cfg) defaultGqlBody)
    ∧ gqlEndpoint = "https://api.github.com/graphql"
    ∧ defaultGqlBody.query = some "\x7bviewer\x7blogin\x7d\x7d"
    ∧ defaultGqlBody.extra = [] := by
  refine ⟨?_, rfl, rfl, rfl⟩
  simp [handle, hm, hc, hr, handleGraphQLRequest, hp, hb, gqlCall, gqlEffectiveBody]

/-- Witness for C9: a GET whose original URL contains `/graphql`. -/
theorem gql_nonpost_forwards_default_body_witness :
    (handle { githubToken := some "tok123", clientId := none, clientSecret := none }
        { method := "GET", bindingPath := none,
          originalUrl := some "/api/github/graphql", query := [], body := none }
        (Except.error "net")).call =
      some (OutboundCall.gql gqlEndpoint "POST"
        (gqlHeaders { githubToken := some "tok123", clientId := none, clientSecret := none })
        defaultGqlBody)
    ∧ gqlEndpoint = "https://api.github.com/graphql"
    ∧ defaultGqlBody.query = some "\x7bviewer\x7blogin\x7d\x7d"
    ∧ defaultGqlBody.extra = [] :=
  gql_nonpost_forwards_default_body _ _ _ rfl rfl rfl (by decide) rfl

/-- Counterexample to C6 as stated: a GraphQL-path request on which the
network call fails produces the 500 body whose error field is
`Failed to proxy GraphQL request`, not the claimed
`Failed to proxy GitHub API request`. -/
theorem graphql_error_body_differs_cex :
    (handle { githubToken := some "tok123", clientId := none, clientSecret := none }
        { method := "POST", bindingPath := some "graphql", originalUrl := none,
          query := [], body := some { query := some "query q", extra := [] } }
        (Except.error "boom")).res.status = 500
    ∧ resErrorField (handle { githubToken := some "tok123", clientId := none, clientSecret := none }
        { method := "POST", bindingPath := some "graphql", originalUrl := none,
          query := [], body := some { query := some "query q", extra := [] } }
        (Except.error "boom")).res.body = some "Failed to proxy GraphQL request"
    ∧ some "Failed to proxy GraphQL request" ≠ some "Failed to proxy GitHub API request" :=
  ⟨rfl, rfl, by decide⟩

/-- Claim C6 (amended): every exception raised during the network call or
body parsing is caught and converted to a status-500 JSON response with
the error text in `details` and CORS headers attached — with error field
`Failed to proxy GitHub API request` on the REST path and
`Failed to proxy GraphQL request` on the GraphQL path.  `handle` is a
total function, so no exception escapes to the hosting runtime. -/
theorem exceptions_become_500_responses (cfg : Config) (req : Request) (msg : String)
    (hm : (req.method == "OPTIONS") = false)
    (hc : credsMissing cfg = false) :
    (isGraphQLRoute req = false →
      (handle cfg req (Except.error msg)).res = restCatchRes msg)
    ∧ (isGraphQLRoute req = false →
       ∀ resp : UpstreamResponse, resp.jsonBody = Except.error msg →
         wantsJson resp.contentType = true →
         (handle cfg req (Except.ok resp)).res = restCatchRes msg)
    ∧ (isGraphQLRoute req = true →
       (req.method == "POST" && gqlBodyInvalid req.body) = false →
       (handle cfg req (Except.error msg)).res = gqlCatchRes msg)
    ∧ (isGraphQLRoute req = true →
       (req.method == "POST" && gqlBodyInvalid req.body) = false →
       ∀ resp : UpstreamResponse, resp.jsonBody = Except.error msg →
         (handle cfg req (Except.ok resp)).res = gqlCatchRes msg)
    ∧ (restCatchRes msg).status = 500
    ∧ (restCatchRes msg).body = some (ResBody.errDetails "Failed to proxy GitHub API request" msg)
    ∧ (restCatchRes msg).headers = some errHeaders
    ∧ (gqlCatchRes msg).status = 500
    ∧ (gqlCatchRes msg).body = some (ResBody.errDetails "Failed to proxy GraphQL request" msg)
    ∧ (gqlCatchRes msg).headers = some errHeaders
    ∧ ("Access-Control-Allow-Origin", some "*") ∈ errHeaders := by
  refine ⟨?_, ?_, ?_, ?_, rfl, rfl, rfl, rfl, rfl, rfl, ?_⟩
  · intro hg
    simp [handle, hm, hc, hg, handleRest, restRes]
  · intro hg resp hjson hwants
    simp [handle, hm, hc, hg, handleRest, restRes, hwants, hjson]
  · intro hg hreject
    simp [handle, hm, hc, hg, handleGraphQLRequest, hreject, gqlRes]
  · intro hg hreject resp hjson
    simp [handle, hm, hc, hg, handleGraphQLRequest, hreject, gqlRes, hjson]
  · simp [errHeaders, corsHeaders]

/-- Witness for amended C6: a REST request whose upstream responded with a
JSON content type but an unparseable body. -/
theorem exceptions_become_500_responses_witness :
    (isGraphQLRoute reqRestSample = false →
      (handle cfgClientOnly reqRestSample (Except.error "bad json")).res =
        restCatchRes "bad json")
    ∧ (isGraphQLRoute reqRestSample = false →
       ∀ resp : UpstreamResponse, resp.jsonBody = Except.error "bad json" →
         wantsJson resp.contentType = true →
         (handle cfgClientOnly reqRestSample (Except.ok resp)).res = restCatchRes "bad json")
    ∧ (isGraphQLRoute reqRestSample = true →
       (reqRestSample.method == "POST" && gqlBodyInvalid reqRestSample.body) = false →
       (handle cfgClientOnly reqRestSample (Except.error "bad json")).res =
         gqlCatchRes "bad json")
    ∧ (isGraphQLRoute reqRestSample = true →
       (reqRestSample.method == "POST" && gqlBodyInvalid reqRestSample.body) = false →
       ∀ resp : UpstreamResponse, resp.jsonBody = Except.error "bad json" →
         (handle cfgClientOnly reqRestSample (Except.ok resp)).res = gqlCatchRes "bad json")
    ∧ (restCatchRes "bad json").status = 500
    ∧ (restCatchRes "bad json").body =
        some (ResBody.errDetails "Failed to proxy GitHub API request" "bad json")
    ∧ (restCatchRes "bad json").headers = some errHeaders
    ∧ (gqlCatchRes "bad json").status = 500
    ∧ (gqlCatchRes "bad json").body =
        some (ResBody.errDetails "Failed to proxy GraphQL request" "bad json")
    ∧ (gqlCatchRes "bad json").headers = some errHeaders
    ∧ ("Access-Control-Allow-Origin", some "*") ∈ errHeaders :=
  exceptions_become_500_responses _ _ _ rfl rfl

/-- Claim C7: every successful upstream call is relayed with the upstream
status (non-success statuses such as 404 included) and the upstream body,
and the four rate-limit header values are reproduced unchanged in the
`X-RateLimit-*` response headers, absent values propagating as `null`
rather than causing an error. -/
theorem upstream_passthrough (cfg : Config) (req : Request) (resp : UpstreamResponse)
    (hm : (req.method == "OPTIONS") = false)
    (hc : credsMissing cfg = false) :
    (isGraphQLRoute req = false → wantsJson resp.contentType = false →
      (handle cfg req (Except.ok resp)).res.status = resp.status
      ∧ (handle cfg req (Except.ok resp)).res.headers =
          some (restRespHeaders resp.contentType resp)
      ∧ (handle cfg req (Except.ok resp)).res.body = some (ResBody.textData resp.textBody))
    ∧ (isGraphQLRoute req = false → wantsJson resp.contentType = true →
       ∀ j, resp.jsonBody = Except.ok j →
      (handle cfg req (Except.ok resp)).res.status = resp.status
      ∧ (handle cfg req (Except.ok resp)).res.headers =
          some (restRespHeaders resp.contentType resp)
      ∧ (handle cfg req (Except.ok resp)).res.body = some (ResBody.jsonData j))
    ∧ (isGraphQLRoute req = true →
       (req.method == "POST" && gqlBodyInvalid req.body) = false →
       ∀ j, resp.jsonBody = Except.ok j →
      (handle cfg req (Except.ok resp)).res.status = resp.status
      ∧ (handle cfg req (Except.ok resp)).res.headers = some (gqlRespHeaders resp)
      ∧ (handle cfg req (Except.ok resp)).res.body = some (ResBody.jsonData j))
    ∧ (restRespHeaders resp.contentType resp).lookup "X-RateLimit-Limit" = some resp.rlLimit
    ∧ (restRespHeaders resp.contentType resp).lookup "X-RateLimit-Remaining"
        = some resp.rlRemaining
    ∧ (restRespHeaders resp.contentType resp).lookup "X-RateLimit-Reset" = some resp.rlReset
    ∧ (restRespHeaders resp.contentType resp).lookup "X-RateLimit-Used" = some resp.rlUsed
    ∧ (gqlRespHeaders resp).lookup "X-RateLimit-Limit" = some resp.rlLimit
    ∧ (gqlRespHeaders resp).lookup "X-RateLimit-Remaining" = some resp.rlRemaining
    ∧ (gqlRespHeaders resp).lookup "X-RateLimit-Reset" = some resp.rlReset
    ∧ (gqlRespHeaders resp).lookup "X-RateLimit-Used" = some resp.rlUsed := by
  refine ⟨?_, ?_, ?_, rfl, rfl, rfl, rfl, rfl, rfl, rfl, rfl⟩
  · intro hg hwants
    refine ⟨?_, ?_, ?_⟩ <;> simp [handle, hm, hc, hg, handleRest, restRes, hwants]
  · intro hg hwants j hjson
    refine ⟨?_, ?_, ?_⟩ <;> simp [handle, hm, hc, hg, handleRest, restRes, hwants, hjson]
  · intro hg hreject j hjson
    refine ⟨?_, ?_, ?_⟩ <;>
      simp [handle, hm, hc, hg, handleGraphQLRequest, hreject, gqlRes, hjson]

/-- A sample upstream 404 JSON response with all rate-limit headers set. -/
def respNotFound : UpstreamResponse :=
  { status := 404, contentType := some "application/json; charset=utf-8",
    rlLimit := some "60", rlRemaining := some "59",
    rlReset := some "1700000000", rlUsed := some "1",
    textBody := "not found",
    jsonBody := Except.ok (Json.obj [("message", Json.str "Not Found")]) }

/-- Witness for C7: an upstream 404 JSON response is relayed with status
404, its parsed body, and all four rate-limit values. -/
theorem upstream_passthrough_witness :
    (isGraphQLRoute reqRestSample = false → wantsJson respNotFound.contentType = false →
      (handle cfgClientOnly reqRestSample (Except.ok respNotFound)).res.status =
        respNotFound.status
      ∧ (handle cfgClientOnly reqRestSample (Except.ok respNotFound)).res.headers =
          some (restRespHeaders respNotFound.contentType respNotFound)
      ∧ (handle cfgClientOnly reqRestSample (Except.ok respNotFound)).res.body =
          some (ResBody.textData respNotFound.textBody))
    ∧ (isGraphQLRoute reqRestSample = false → wantsJson respNotFound.contentType = true →
       ∀ j, respNotFound.jsonBody = Except.ok j →
      (handle cfgClientOnly reqRestSample (Except.ok respNotFound)).res.status =
        respNotFound.status
      ∧ (handle cfgClientOnly reqRestSample (Except.ok respNotFound)).res.headers =
          some (restRespHeaders respNotFound.contentType respNotFound)
      ∧ (handle cfgClientOnly reqRestSample (Except.ok respNotFound)).res.body =
          some (ResBody.jsonData j))
    ∧ (isGraphQLRoute reqRestSample = true →
       (reqRestSample.method == "POST" && gqlBodyInvalid reqRestSample.body) = false →
       ∀ j, respNotFound.jsonBody = Except.ok j →
      (handle cfgClientOnly reqRestSample (Except.ok respNotFound)).res.status =
        respNotFound.status
      ∧ (handle cfgClientOnly reqRestSample (Except.ok respNotFound)).res.headers =
          some (gqlRespHeaders respNotFound)
      ∧ (handle cfgClientOnly reqRestSample (Except.ok respNotFound)).res.body =
          some (ResBody.jsonData j))
    ∧ (restRespHeaders respNotFound.contentType respNotFound).lookup "X-RateLimit-Limit"
        = some respNotFound.rlLimit
    ∧ (restRespHeaders respNotFound.contentType respNotFound).lookup "X-RateLimit-Remaining"
        = some respNotFound.rlRemaining
    ∧ (restRespHeaders respNotFound.contentType respNotFound).lookup "X-RateLimit-Reset"
        = some respNotFound.rlReset
    ∧ (restRespHeaders respNotFound.contentType respNotFound).lookup "X-RateLimit-Used"
        = some respNotFound.rlUsed
    ∧ (gqlRespHeaders respNotFound).lookup "X-RateLimit-Limit" = some respNotFound.rlLimit
    ∧ (gqlRespHeaders respNotFound).lookup "X-RateLimit-Remaining"
        = some respNotFound.rlRemaining
    ∧ (gqlRespHeaders respNotFound).lookup "X-RateLimit-Reset" = some respNotFound.rlReset
    ∧ (gqlRespHeaders respNotFound).lookup "X-RateLimit-Used" = some respNotFound.rlUsed :=
  upstream_passthrough _ _ _ rfl rfl

/-- Claim C8: on the REST path the response body is the JSON-parsed
upstream body exactly when the upstream content type contains
`application/json`, and the raw upstream text otherwise; the response
`Content-Type` equals the upstream content type, defaulting to
`application/json` when it is absent (or empty, which JavaScript
truthiness treats as absent). -/
theorem rest_body_interpretation (cfg : Config) (req : Request) (resp : UpstreamResponse)
    (hm : (req.method == "OPTIONS") = false)
    (hc : credsMissing cfg = false)
    (hg : isGraphQLRoute req = false) :
    (∀ s, resp.contentType = some s → strContains s "application/json" = true →
       ∀ j, resp.jsonBody = Except.ok j →
         (handle cfg req (Except.ok resp)).res.body = some (ResBody.jsonData j))
    ∧ (∀ s, resp.contentType = some s → strContains s "application/json" = false →
        (handle cfg req (Except.ok resp)).res.body = some (ResBody.textData resp.textBody))
    ∧ (resp.contentType = none →
        (handle cfg req (Except.ok resp)).res.body = some (ResBody.textData resp.textBody))
    ∧ (∀ s, resp.contentType = some s → s.isEmpty = false →
        (restRespHeaders resp.contentType resp).lookup "Content-Type" = some (some s))
    ∧ (resp.contentType = none →
        (restRespHeaders resp.contentType resp).lookup "Content-Type"
          = some (some "application/json"))
    ∧ (wantsJson resp.contentType = false →
        (handle cfg req (Except.ok resp)).res.headers =
          some (restRespHeaders resp.contentType resp))
    ∧ (∀ j, resp.jsonBody = Except.ok j →
        (handle cfg req (Except.ok resp)).res.headers =
          some (restRespHeaders resp.contentType resp)) := by
  refine ⟨?_, ?_, ?_, ?_, ?_, ?_, ?_⟩
  · intro s hct hcontains j hjson
    have hwants : wantsJson resp.contentType = true := by
      rw [hct, wantsJson_eq_contains, hcontains]
    simp [handle, hm, hc, hg, handleRest, restRes, hwants, hjson]
  · intro s hct hcontains
    have hwants : wantsJson resp.contentType = false := by
      rw [hct, wantsJson_eq_contains, hcontains]
    simp [handle, hm, hc, hg, handleRest, restRes, hwants]
  · intro hct
    have hwants : wantsJson resp.contentType = false := by rw [hct]; rfl
    simp [handle, hm, hc, hg, handleRest, restRes, hwants]
  · intro s hct hempty
    rw [hct]
    simp [restRespHeaders, ctHeaderValue, hempty, List.lookup]
  · intro hct
    rw [hct]
    rfl
  · intro hwants
    simp [handle, hm, hc, hg, handleRest, restRes, hwants]
  · intro j hjson
    cases hwants : wantsJson resp.contentType <;>
      simp [handle, hm, hc, hg, handleRest, restRes, hwants, hjson]

/-- A sample upstream `text/plain` response. -/
def respPlainText : UpstreamResponse :=
  { status := 200, contentType := some "text/plain",
    rlLimit := none, rlRemaining := none, rlReset := none, rlUsed := none,
    textBody := "hello",
    jsonBody := Except.error "Unexpected token h" }

/-- Witness for C8: a `text/plain` upstream response is returned as raw
text and its content type is passed through. -/
theorem rest_body_interpretation_witness :
    (∀ s, respPlainText.contentType = some s → strContains s "application/json" = true →
       ∀ j, respPlainText.jsonBody = Except.ok j →
         (handle cfgClientOnly reqRestSample (Except.ok respPlainText)).res.body =
           some (ResBody.jsonData j))
    ∧ (∀ s, respPlainText.contentType = some s → strContains s "application/json" = false →
        (handle cfgClientOnly reqRestSample (Except.ok respPlainText)).res.body =
          some (ResBody.textData respPlainText.textBody))
    ∧ (respPlainText.contentType = none →
        (handle cfgClientOnly reqRestSample (Except.ok respPlainText)).res.body =
          some (ResBody.textData respPlainText.textBody))
    ∧ (∀ s, respPlainText.contentType = some s → s.isEmpty = false →
        (restRespHeaders respPlainText.contentType respPlainText).lookup "Content-Type"
          = some (some s))
    ∧ (respPlainText.contentType = none →
        (restRespHeaders respPlainText.contentType respPlainText).lookup "Content-Type"
          = some (some "application/json"))
    ∧ (wantsJson respPlainText.contentType = false →
        (handle cfgClientOnly reqRestSample (Except.ok respPlainText)).res.headers =
          some (restRespHeaders respPlainText.contentType respPlainText))
    ∧ (∀ j, respPlainText.jsonBody = Except.ok j →
        (handle cfgClientOnly reqRestSample (Except.ok respPlainText)).res.headers =
          some (restRespHeaders respPlainText.contentType respPlainText)) :=
  rest_body_interpretation _ _ _ rfl rfl rfl
